import Mathlib

/-!
Verification development for the webpack build-pipeline configuration
(`src/webpack.config.js`).  The configuration is embedded shallowly:
the environment read becomes an explicit `Option String` signal, the
exported configuration object becomes a Lean structure, regex file
patterns become decidable predicates over strings, and the loader and
plugin objects become inductive data.
-/

namespace ExcelWebpack

/-- BuildMode, one of Development / Production (spec data model). -/
inductive BuildMode
  | Development
  | Production
deriving DecidableEq

/-- ArtifactKind, one of Script / Style (spec data model). -/
inductive ArtifactKind
  | Script
  | Style
deriving DecidableEq

/-- The check on line 9 of the source, with the environment read made an
explicit parameter (`none` = the variable is unset): NODE_ENV equals
the string "production". -/
def isProd (signal : Option String) : Bool :=
  signal == some "production"

/-- Line 10 of the source: the negation of the production flag. -/
def isDev (signal : Option String) : Bool :=
  !(isProd signal)

/-- The Mode Resolver of the spec: the boolean flag `isProd` viewed as a
BuildMode value. -/
def resolveMode (signal : Option String) : BuildMode :=
  if isProd signal then BuildMode.Production else BuildMode.Development

/-- Rendering of a BuildMode as webpack's `mode` string. -/
def modeString : BuildMode → String
  | BuildMode.Development => "development"
  | BuildMode.Production => "production"

/-- The `fileName` arrow function of line 15, with the captured `isDev`
flag passed explicitly: a stable name in development, a name holding the
`[hash]` placeholder otherwise. -/
def fileName (dev : Bool) (ext : String) : String :=
  if dev then "bundle." ++ ext else "bundle.[hash]." ++ ext

/-- Extension associated to each artifact kind ("js" for the script
bundle, "css" for the style bundle). -/
def extensionFor : ArtifactKind → String
  | ArtifactKind.Script => "js"
  | ArtifactKind.Style => "css"

/-- Configuration-error taxonomy of the spec (section 7, case a). -/
inductive ConfigError
  | missingBuildHash
deriving DecidableEq

/-- Scans a character list for the first occurrence of the literal
placeholder `[hash]`, returning the text before and after it. -/
def splitAtHash : List Char → Option (List Char × List Char)
  | [] => none
  | '[' :: 'h' :: 'a' :: 's' :: 'h' :: ']' :: rest => some ([], rest)
  | c :: rest => (splitAtHash rest).map (fun p => (c :: p.1, p.2))

/-- Modelled from the spec: the external build executor substitutes the
`[hash]` placeholder of the configured filename template with the
per-invocation build hash; that substitution step is not part of
`src/webpack.config.js` itself. -/
def substHash (template h : String) : String :=
  match splitAtHash template.data with
  | some (pre, post) => String.mk pre ++ h ++ String.mk post
  | none => template

/-- Modelled from the spec: `nameFor(kind, mode, buildHash)` — the
Output Naming Strategy contract (spec 4.2).  The filename template comes
from the source `fileName` function; the hash supply and the
missing-hash configuration error belong to the external build executor
and are modelled from the spec's words. -/
def nameFor (kind : ArtifactKind) (mode : BuildMode) (buildHash : Option String) :
    Except ConfigError String :=
  match mode with
  | BuildMode.Development => Except.ok (fileName true (extensionFor kind))
  | BuildMode.Production =>
    match buildHash with
    | none => Except.error ConfigError.missingBuildHash
    | some h => Except.ok (substHash (fileName false (extensionFor kind)) h)

/-- File patterns of the transformation rules, as data.  `styleExt` is
the regex on line 92 (`.sass` or `.scss` suffix, case-insensitive),
`jsExt` the regex on line 114 (`.js` suffix), `nodeModules` the exclude
regex on line 115 (`node_modules` appears anywhere in the path). -/
inductive FilePattern
  | styleExt
  | jsExt
  | nodeModules
deriving DecidableEq

/-- Lower-cases every character of a string. -/
def lowerStr (s : String) : String :=
  String.mk (s.data.map Char.toLower)

/-- Suffix test on strings via their character lists. -/
def strEndsWith (s suffix : String) : Bool :=
  List.isSuffixOf suffix.data s.data

/-- Infix test on character lists: the first list occurs contiguously in
the second. -/
def listInfixB (p : List Char) : List Char → Bool
  | [] => p.isEmpty
  | c :: rest => List.isPrefixOf p (c :: rest) || listInfixB p rest

/-- Semantics of the file patterns as decidable string predicates,
mirroring the source regexes. -/
def matchesPattern : FilePattern → String → Bool
  | FilePattern.styleExt, name =>
      strEndsWith (lowerStr name) ".sass" || strEndsWith (lowerStr name) ".scss"
  | FilePattern.jsExt, name => strEndsWith name ".js"
  | FilePattern.nodeModules, name => listInfixB "node_modules".data name.data

/-- Options objects carried by loaders in the source. -/
inductive LoaderOpts
  | babelOpts (presets : List String)
  | miniCssOpts (hmr : Bool) (reloadAll : Bool)
deriving DecidableEq

/-- A loader entry: either a bare loader name string, or an object with
a loader name and options. -/
inductive Loader
  | named (name : String)
  | withOptions (loader : String) (options : LoaderOpts)
deriving DecidableEq

/-- The `jsLoaders` function of lines 19-35: the babel loader with the
preset-env preset, plus the eslint loader pushed only in development. -/
def jsLoaders (signal : Option String) : List Loader :=
  [Loader.withOptions "babel-loader" (LoaderOpts.babelOpts ["@babel/preset-env"])] ++
    (if isDev signal then [Loader.named "eslint-loader"] else [])

/-- A TransformationRule: file-pattern test, optional exclude pattern,
and the ordered loader sequence. -/
structure Rule where
  test : FilePattern
  exclude : Option FilePattern
  use : List Loader
deriving DecidableEq

/-- The `minify` options of the html plugin on lines 69-72. -/
structure MinifyOpts where
  removeComments : Bool
  collapseWhitespace : Bool
deriving DecidableEq

/-- One copy-plugin pattern entry (lines 76-81). -/
structure CopyPatternEntry where
  fromPath : String
  toPath : String
deriving DecidableEq

/-- The four PipelinePlugin constructors appearing in the source. -/
inductive Plugin
  | cleanWebpackPlugin
  | htmlWebpackPlugin (template : String) (minify : MinifyOpts)
  | copyPlugin (patterns : List CopyPatternEntry)
  | miniCssExtractPlugin (filename : String)
deriving DecidableEq

/-- The kind of a plugin, forgetting its options. -/
inductive PluginKind
  | clean
  | html
  | copy
  | miniCssExtract
deriving DecidableEq

/-- Maps each plugin to its kind. -/
def pluginKind : Plugin → PluginKind
  | Plugin.cleanWebpackPlugin => PluginKind.clean
  | Plugin.htmlWebpackPlugin _ _ => PluginKind.html
  | Plugin.copyPlugin _ => PluginKind.copy
  | Plugin.miniCssExtractPlugin _ => PluginKind.miniCssExtract

/-- The `output` section (lines 45-51). -/
structure OutputOpts where
  filename : String
  path : String
deriving DecidableEq

/-- The `resolve` section (lines 52-58). -/
structure ResolveOpts where
  extensions : List String
  aliasMap : List (String × String)
deriving DecidableEq

/-- The `devServer` section (lines 60-64). -/
structure DevServerOpts where
  port : Nat
  hot : Bool
deriving DecidableEq

/-- The `module` section (lines 89-119). -/
structure ModuleOpts where
  rules : List Rule
deriving DecidableEq

/-- The aggregate PipelineConfiguration: the object assigned to
`module.exports` (lines 37-121). -/
structure PipelineConfiguration where
  context : String
  mode : String
  entry : List String
  output : OutputOpts
  resolve : ResolveOpts
  devtool : Option String
  devServer : DevServerOpts
  plugins : List Plugin
  module : ModuleOpts
deriving DecidableEq

/-- `path.resolve(dirname, sub)`, abstracted as path concatenation. -/
def pathResolve (dirname sub : String) : String :=
  dirname ++ "/" ++ sub

/-- The full `module.exports` object of the source, as a function of the
directory of the config file and of the environment signal. -/
def webpackConfig (dirname : String) (signal : Option String) : PipelineConfiguration :=
  { context := pathResolve dirname "src"
    mode := "development"
    entry := ["@babel/polyfill", "./index.js"]
    output :=
      { filename := fileName (isDev signal) "js"
        path := pathResolve dirname "dist" }
    resolve :=
      { extensions := [".js"]
        aliasMap :=
          [("@", pathResolve dirname "src"),
           ("@core", pathResolve dirname "src/core")] }
    devtool := if isDev signal then some "source-map" else none
    devServer := { port := 3000, hot := isDev signal }
    plugins :=
      [Plugin.cleanWebpackPlugin,
       Plugin.htmlWebpackPlugin "index.html"
         { removeComments := isProd signal, collapseWhitespace := isProd signal },
       Plugin.copyPlugin
         [{ fromPath := pathResolve dirname "src/favicon.ico"
            toPath := pathResolve dirname "dist" }],
       Plugin.miniCssExtractPlugin (fileName (isDev signal) "css")]
    module :=
      { rules :=
          [{ test := FilePattern.styleExt
             exclude := none
             use :=
               [Loader.withOptions "MiniCssExtractPlugin.loader"
                  (LoaderOpts.miniCssOpts (isDev signal) true),
                Loader.named "css-loader",
                Loader.named "sass-loader"] },
           { test := FilePattern.jsExt
             exclude := some FilePattern.nodeModules
             use := jsLoaders signal }] } }

/-- Normalizes a loader by zeroing its hot-module-replacement option. -/
def stripLoaderModeDeps : Loader → Loader
  | Loader.withOptions l (LoaderOpts.miniCssOpts _ reloadAll) =>
      Loader.withOptions l (LoaderOpts.miniCssOpts false reloadAll)
  | l => l

/-- Removes the lint loader from a loader sequence. -/
def stripLintLoaders : List Loader → List Loader
  | [] => []
  | Loader.named "eslint-loader" :: rest => stripLintLoaders rest
  | l :: rest => l :: stripLintLoaders rest

/-- Normalizes a rule by removing its mode-conditional loader options. -/
def stripRuleModeDeps (r : Rule) : Rule :=
  { r with use := (stripLintLoaders r.use).map stripLoaderModeDeps }

/-- Normalizes a plugin by zeroing its mode-conditional options. -/
def stripPluginModeDeps : Plugin → Plugin
  | Plugin.htmlWebpackPlugin t _ =>
      Plugin.htmlWebpackPlugin t { removeComments := false, collapseWhitespace := false }
  | Plugin.miniCssExtractPlugin _ => Plugin.miniCssExtractPlugin ""
  | p => p

/-- Erases every mode-conditional option of a configuration: the two
output filenames, the source-map setting, the dev-server hot toggle, the
markup-minification flags, the style loader's hot-reload option, and the
lint loader. -/
def stripModeDependent (c : PipelineConfiguration) : PipelineConfiguration :=
  { c with
    output := { c.output with filename := "" }
    devtool := none
    devServer := { c.devServer with hot := false }
    plugins := c.plugins.map stripPluginModeDeps
    module := { rules := c.module.rules.map stripRuleModeDeps } }

end ExcelWebpack

namespace ExcelWebpack

/-- C1: for every ArtifactKind and BuildMode = Production with a hash
supplied, `nameFor` returns "bundle.", hash, ".", extension — exactly
the supplied hash segment with the kind's extension. -/
theorem nameFor_production_embeds_hash (h : String) :
    nameFor ArtifactKind.Script BuildMode.Production (some h) =
      Except.ok ("bundle." ++ h ++ ".js") ∧
    nameFor ArtifactKind.Style BuildMode.Production (some h) =
      Except.ok ("bundle." ++ h ++ ".css") :=
  ⟨rfl, rfl⟩

/-- C2: for every ArtifactKind, `nameFor` with BuildMode = Production
and no hash supplied reports a configuration error and never returns a
name. -/
theorem nameFor_production_missing_hash_errors :
    ∀ kind : ArtifactKind,
      nameFor kind BuildMode.Production none =
        Except.error ConfigError.missingBuildHash := by
  intro kind
  cases kind <;> rfl

/-- C3 counterexample: with the signal "production" the Mode Resolver
yields Production, yet the assembled configuration's mode field is the
hardcoded string "development", not the resolver's mode. -/
theorem config_mode_ignores_resolver_cex :
    resolveMode (some "production") = BuildMode.Production ∧
    (webpackConfig "/repo" (some "production")).mode ≠
      modeString (resolveMode (some "production")) := by
  constructor
  · rfl
  · decide

/-- C3 amended: the assembled configuration's mode field is the constant
string "development", regardless of the environment signal. -/
theorem config_mode_constant_development (dirname : String) (signal : Option String) :
    (webpackConfig dirname signal).mode = "development" :=
  rfl

/-- C4: `resolveMode` is total and returns Production exactly on the
marker string "production"; every other string and the absent signal map
to Development. -/
theorem resolveMode_total :
    ∀ signal : Option String,
      resolveMode signal =
        if signal = some "production" then BuildMode.Production
        else BuildMode.Development := by
  intro signal
  unfold resolveMode isProd
  rcases signal with _ | s
  · simp
  · by_cases hs : s = "production" <;> simp [hs]

/-- C5: for BuildMode = Development, `nameFor` returns "bundle.js" for
Script and "bundle.css" for Style, for any hash argument — hence no hash
segment and full determinism. -/
theorem nameFor_development_stable (hash : Option String) :
    nameFor ArtifactKind.Script BuildMode.Development hash =
      Except.ok "bundle.js" ∧
    nameFor ArtifactKind.Style BuildMode.Development hash =
      Except.ok "bundle.css" :=
  ⟨rfl, rfl⟩

/-- C6 counterexample: the style rule (first rule of the assembled
configuration) carries the styleExt pattern, and that pattern does not
match a plain `.css` file, although `.css` belongs to the family the
claim names. -/
theorem style_rule_css_not_matched_cex :
    ((webpackConfig "/repo" none).module.rules.map Rule.test).head? =
      some FilePattern.styleExt ∧
    matchesPattern FilePattern.styleExt "style.css" = false := by
  constructor
  · rfl
  · decide

/-- C6 amended: for every BuildMode, the first rule is the style rule —
pattern matching `.sass`/`.scss` suffixes case-insensitively (but not
plain `.css`), loader sequence [extraction with hot-reload set to the
development flag and reloadAll, css-loader, sass-loader] — and the
extraction step's hot-reload option is enabled exactly in Development. -/
theorem style_rule_shape (dirname : String) (signal : Option String) :
    (webpackConfig dirname signal).module.rules.head? =
      some
        { test := FilePattern.styleExt
          exclude := none
          use :=
            [Loader.withOptions "MiniCssExtractPlugin.loader"
               (LoaderOpts.miniCssOpts (isDev signal) true),
             Loader.named "css-loader",
             Loader.named "sass-loader"] } ∧
    matchesPattern FilePattern.styleExt "main.sass" = true ∧
    matchesPattern FilePattern.styleExt "main.scss" = true ∧
    matchesPattern FilePattern.styleExt "MAIN.SCSS" = true ∧
    matchesPattern FilePattern.styleExt "main.css" = false ∧
    (isDev signal = true ↔ resolveMode signal = BuildMode.Development) := by
  refine ⟨rfl, by decide, by decide, by decide, by decide, ?_⟩
  cases hp : isProd signal <;> simp [isDev, resolveMode, hp]

/-- C7: for every BuildMode, the second rule is the script rule —
pattern matching the `.js` suffix, excluding paths containing
`node_modules`, loader sequence starting with the babel loader carrying
the preset-env preset, with the eslint loader appended exactly in
Development. -/
theorem script_rule_shape (dirname : String) (signal : Option String) :
    (webpackConfig dirname signal).module.rules[1]? =
      some
        { test := FilePattern.jsExt
          exclude := some FilePattern.nodeModules
          use :=
            [Loader.withOptions "babel-loader"
               (LoaderOpts.babelOpts ["@babel/preset-env"])] ++
              (if isDev signal then [Loader.named "eslint-loader"] else []) } ∧
    matchesPattern FilePattern.jsExt "index.js" = true ∧
    matchesPattern FilePattern.nodeModules "node_modules/lib/index.js" = true ∧
    (isDev signal = true ↔ resolveMode signal = BuildMode.Development) := by
  refine ⟨rfl, by decide, by decide, ?_⟩
  cases hp : isProd signal <;> simp [isDev, resolveMode, hp]

/-- C8: for every BuildMode, the entry-template plugin (second plugin)
is the html plugin on the index.html template with both minification
flags (comment removal, whitespace collapsing) set to the production
flag — enabled exactly in Production. -/
theorem html_plugin_minify_iff_production (dirname : String) (signal : Option String) :
    (webpackConfig dirname signal).plugins[1]? =
      some (Plugin.htmlWebpackPlugin "index.html"
        { removeComments := isProd signal, collapseWhitespace := isProd signal }) ∧
    (isProd signal = true ↔ resolveMode signal = BuildMode.Production) := by
  refine ⟨rfl, ?_⟩
  cases hp : isProd signal <;> simp [resolveMode, hp]

/-- C9: for every BuildMode, the clean plugin is the first element of
the plugin list, which consists of the clean, html, copy and
style-extraction plugins in that order. -/
theorem clean_plugin_first (dirname : String) (signal : Option String) :
    (webpackConfig dirname signal).plugins.head? = some Plugin.cleanWebpackPlugin ∧
    (webpackConfig dirname signal).plugins.map pluginKind =
      [PluginKind.clean, PluginKind.html, PluginKind.copy, PluginKind.miniCssExtract] :=
  ⟨rfl, rfl⟩

/-- C10: flipping the environment signal changes only the
mode-conditional option values: after erasing those options the two
configurations are equal, and the frame facts hold — the entry list is
exactly ["@babel/polyfill", "./index.js"], the dev-server port is 3000,
the alias map binds "@" and "@core", and the plugin list is the same
four plugins in the same order. -/
theorem mode_flip_frame (dirname : String) (s₁ s₂ : Option String) :
    (webpackConfig dirname s₁).entry = ["@babel/polyfill", "./index.js"] ∧
    (webpackConfig dirname s₁).devServer.port = 3000 ∧
    ((webpackConfig dirname s₁).resolve.aliasMap.map Prod.fst) = ["@", "@core"] ∧
    (webpackConfig dirname s₁).plugins.map pluginKind =
      (webpackConfig dirname s₂).plugins.map pluginKind ∧
    stripModeDependent (webpackConfig dirname s₁) =
      stripModeDependent (webpackConfig dirname s₂) := by
  refine ⟨rfl, rfl, rfl, rfl, ?_⟩
  cases hp₁ : isProd s₁ <;> cases hp₂ : isProd s₂ <;>
    simp [webpackConfig, stripModeDependent, stripPluginModeDeps, stripRuleModeDeps,
      stripLintLoaders, stripLoaderModeDeps, jsLoaders, fileName, isDev, hp₁, hp₂]

end ExcelWebpack
